import Mathlib

/-!
Verification of the PPV calculator (a single-screen Bayes positive-predictive-value
calculator).

The source is one file, `src/App.tsx`.  All numeric computation there is done on
JavaScript numbers; we embed those values as rationals (`ℚ`), with an explicit
`JSNum` type distinguishing finite values from the non-finite sentinels (`NaN`,
`±Infinity`) that the code can produce and that `Number.isFinite` tests for.
`Math.round` is JavaScript round-half-toward-positive-infinity, i.e.
`⌊x + 1/2⌋` on finite inputs.
-/

namespace PPVCalc

/-- A JavaScript number: either a finite value (embedded as a rational) or one of
the non-finite sentinels `NaN`, `Infinity`, `-Infinity`. -/
inductive JSNum where
  | fin (q : ℚ)
  | nan
  | posInf
  | negInf
deriving DecidableEq

/-- `Number.isFinite`: true exactly on finite values. -/
def JSNum.isFinite : JSNum → Bool
  | .fin _ => true
  | _ => false

/-- JavaScript `Math.round` on finite values: round half toward positive infinity,
i.e. `⌊x + 1/2⌋`. -/
def jsRound (q : ℚ) : ℤ := ⌊q + 1/2⌋

/-- The Bayes Evaluator, from `App.tsx` lines 15–21:
`tp = sensitivity * prevalence`, `fp = (1 - specificity) * (1 - prevalence)`,
`denom = tp + fp`; returns `NaN` when `denom === 0`, else `tp / denom`. -/
def ppv (sensitivity specificity prevalence : ℚ) : JSNum :=
  let tp := sensitivity * prevalence
  let fp := (1 - specificity) * (1 - prevalence)
  let denom := tp + fp
  if denom = 0 then JSNum.nan else JSNum.fin (tp / denom)

/-- The two decimal digits of a natural number below 100, as a string of length 2
(used to model the fractional part produced by `toFixed(2)`). -/
def twoDigits (m : ℕ) : String := String.mk [Nat.digitChar (m / 10), Nat.digitChar (m % 10)]

/-- JavaScript `Number.prototype.toFixed(2)` on a finite value: a sign for
negative inputs, then the integer part, a decimal point, and exactly two
fractional digits, where the digit string is the integer nearest to `|x| * 100`
(ties toward the larger integer, per ECMA-262). -/
def toFixed2 (x : ℚ) : String :=
  let n := (⌊|x| * 100 + 1/2⌋).toNat
  ((if x < 0 then "-" else "") ++ Nat.repr (n / 100)) ++ "." ++ twoDigits (n % 100)

/-- The display formatter, from `App.tsx` line 23:
`(x) => (Number.isFinite(x) ? (x * 100).toFixed(2) + "%" : "n/a")`. -/
def fmtPct (x : JSNum) : String :=
  match x with
  | .fin q => toFixed2 (q * 100) ++ "%"
  | _ => "n/a"

/-- The four confusion-matrix cells. -/
structure Cells where
  TP : ℤ
  FP : ℤ
  TN : ℤ
  FN : ℤ
deriving DecidableEq

/-- The Population Projector, from `ConfusionOutline` in `App.tsx` lines 144–150:
`diseased = Math.round(population * prevalence)`; `healthy = population - diseased`;
`TP = Math.round(diseased * sensitivity)`; `FN = diseased - TP`;
`TN = Math.round(healthy * specificity)`; `FP = healthy - TN`. -/
def confusionCells (sensitivity specificity prevalence : ℚ) (population : ℤ) : Cells :=
  let diseased := jsRound ((population : ℚ) * prevalence)
  let healthy := population - diseased
  let TP := jsRound ((diseased : ℚ) * sensitivity)
  let FN := diseased - TP
  let TN := jsRound ((healthy : ℚ) * specificity)
  let FP := healthy - TN
  ⟨TP, FP, TN, FN⟩

/-- The Parameter Store: the three percentage values held by the top-level screen
(`useState` in `App.tsx` lines 7–9). -/
structure Params where
  sensitivityPct : ℚ
  specificityPct : ℚ
  prevalencePct : ℚ
deriving DecidableEq

/-- Initial store contents (`useState(90)`, `useState(95)`, `useState(5)`). -/
def initialParams : Params := ⟨90, 95, 5⟩

/-- Setter for the sensitivity percentage (`setSensitivityPct`). -/
def setSensitivityPct (v : ℚ) (st : Params) : Params := { st with sensitivityPct := v }

/-- Setter for the specificity percentage (`setSpecificityPct`). -/
def setSpecificityPct (v : ℚ) (st : Params) : Params := { st with specificityPct := v }

/-- Setter for the prevalence percentage (`setPrevalencePct`). -/
def setPrevalencePct (v : ℚ) (st : Params) : Params := { st with prevalencePct := v }

/-- `jsRound` of a non-negative value is non-negative. -/
lemma jsRound_nonneg {q : ℚ} (h : 0 ≤ q) : 0 ≤ jsRound q := by
  unfold jsRound
  exact Int.le_floor.mpr (by push_cast; linarith)

/-- `jsRound` of a value at most the integer `d` is at most `d`. -/
lemma jsRound_le {q : ℚ} {d : ℤ} (h : q ≤ (d : ℚ)) : jsRound q ≤ d := by
  unfold jsRound
  have hlt : q + 1/2 < ((d + 1 : ℤ) : ℚ) := by push_cast; linarith
  exact Int.lt_add_one_iff.mp (Int.floor_lt.mpr hlt)

/-- C1: for every sensitivity `s`, specificity `c` and prevalence `p`, `ppv`
computes `tp = s * p` and `fp = (1 - c) * (1 - p)`, returns the `NaN` sentinel
when `tp + fp = 0`, and returns `tp / (tp + fp)` otherwise. -/
theorem ppv_algorithm (s c p : ℚ) :
    (s * p + (1 - c) * (1 - p) = 0 → ppv s c p = JSNum.nan) ∧
    (s * p + (1 - c) * (1 - p) ≠ 0 →
      ppv s c p = JSNum.fin (s * p / (s * p + (1 - c) * (1 - p)))) := by
  constructor <;> intro h <;> simp [ppv, h]

/-- Witness for C1: both branches of `ppv_algorithm` at concrete inputs. -/
theorem ppv_algorithm_witness :
    ppv 1 1 0 = JSNum.nan ∧
    ppv (9/10) (19/20) (1/20) =
      JSNum.fin ((9/10) * (1/20) / ((9/10) * (1/20) + (1 - 19/20) * (1 - 1/20))) := by
  refine ⟨(ppv_algorithm 1 1 0).1 (by norm_num), (ppv_algorithm (9/10) (19/20) (1/20)).2 (by norm_num)⟩

/-- C3: `ppv` returns the `NaN` sentinel exactly when the denominator
`s * p + (1 - c) * (1 - p)` is zero; in particular for prevalence `0` and
specificity `1` it returns the sentinel. -/
theorem ppv_nan_iff_denom_zero (s c p : ℚ) :
    (ppv s c p = JSNum.nan ↔ s * p + (1 - c) * (1 - p) = 0) ∧
    ppv s 1 0 = JSNum.nan := by
  constructor
  · by_cases h : s * p + (1 - c) * (1 - p) = 0 <;> simp [ppv, h]
  · simp [ppv]

/-- C6: for sensitivity `0.90`, specificity `0.95`, prevalence `0.05`, `ppv`
returns `0.045 / 0.0925 = 18/37 = 0.486486...`, approximately `48.65%`. -/
theorem ppv_example_90_95_5 :
    ppv (9/10) (19/20) (1/20) = JSNum.fin (18/37) ∧
    (18/37 : ℚ) = (45/1000) / (925/10000) ∧
    (4864/10000 : ℚ) < 18/37 ∧ (18/37 : ℚ) < 4866/10000 := by
  refine ⟨?_, by norm_num, by norm_num, by norm_num⟩
  norm_num [ppv]

/-- Counterexample to C4 as stated: at sensitivity `1` and specificity `1`
(so `s + c = 2 > 1`), `ppv` takes the same value at the prevalences `1/4 < 1/2`
inside `(0, 1)`, so it is not strictly increasing there. -/
theorem ppv_not_strictly_increasing_counterexample :
    (1 : ℚ) < 1 + 1 ∧ (0 : ℚ) < 1/4 ∧ (1/4 : ℚ) < 1/2 ∧ (1/2 : ℚ) < 1 ∧
    ppv 1 1 (1/4) = JSNum.fin 1 ∧ ppv 1 1 (1/2) = JSNum.fin 1 ∧
    ppv 1 1 (1/4) = ppv 1 1 (1/2) := by
  norm_num [ppv]

/-- C4 (amended): for fixed sensitivity `s` and specificity `c` with `s + c > 1`
and `c < 1`, `ppv s c ·` is strictly increasing in prevalence over `(0, 1)`:
both values are finite and the earlier one is strictly smaller. -/
theorem ppv_strictly_increasing (s c p₁ p₂ : ℚ) (hsc : 1 < s + c) (hc : c < 1)
    (hp₀ : 0 < p₁) (hp : p₁ < p₂) (hp₁ : p₂ < 1) :
    ∃ v₁ v₂ : ℚ, ppv s c p₁ = JSNum.fin v₁ ∧ ppv s c p₂ = JSNum.fin v₂ ∧ v₁ < v₂ := by
  have hs : 0 < s := by linarith
  have hd₁ : 0 < s * p₁ + (1 - c) * (1 - p₁) := by nlinarith
  have hd₂ : 0 < s * p₂ + (1 - c) * (1 - p₂) := by nlinarith
  refine ⟨s * p₁ / (s * p₁ + (1 - c) * (1 - p₁)),
          s * p₂ / (s * p₂ + (1 - c) * (1 - p₂)), ?_, ?_, ?_⟩
  · simp [ppv, ne_of_gt hd₁]
  · simp [ppv, ne_of_gt hd₂]
  · rw [div_lt_div_iff₀ hd₁ hd₂]
    nlinarith [mul_pos (mul_pos hs (show (0:ℚ) < 1 - c by linarith))
      (show (0:ℚ) < p₂ - p₁ by linarith)]

/-- Witness for the amended C4 at sensitivity `9/10`, specificity `19/20`,
prevalences `1/20 < 1/10`. -/
theorem ppv_strictly_increasing_witness :
    ∃ v₁ v₂ : ℚ, ppv (9/10) (19/20) (1/20) = JSNum.fin v₁ ∧
      ppv (9/10) (19/20) (1/10) = JSNum.fin v₂ ∧ v₁ < v₂ :=
  ppv_strictly_increasing (9/10) (19/20) (1/20) (1/10)
    (by norm_num) (by norm_num) (by norm_num) (by norm_num) (by norm_num)

/-- C5: for sensitivity, specificity and prevalence in `[0, 1]`, `ppv` either
returns the `NaN` sentinel (exactly when the denominator is zero) or a finite
value in `[0, 1]`. -/
theorem ppv_range (s c p : ℚ) (hs₀ : 0 ≤ s) (hs₁ : s ≤ 1) (hc₀ : 0 ≤ c) (hc₁ : c ≤ 1)
    (hp₀ : 0 ≤ p) (hp₁ : p ≤ 1) :
    (s * p + (1 - c) * (1 - p) = 0 ∧ ppv s c p = JSNum.nan) ∨
    (s * p + (1 - c) * (1 - p) ≠ 0 ∧
      ∃ v : ℚ, ppv s c p = JSNum.fin v ∧ 0 ≤ v ∧ v ≤ 1) := by
  have htp : 0 ≤ s * p := mul_nonneg hs₀ hp₀
  have hfp : 0 ≤ (1 - c) * (1 - p) := mul_nonneg (by linarith) (by linarith)
  by_cases h : s * p + (1 - c) * (1 - p) = 0
  · exact Or.inl ⟨h, by simp [ppv, h]⟩
  · have hd : 0 < s * p + (1 - c) * (1 - p) := lt_of_le_of_ne (by linarith) (Ne.symm h)
    refine Or.inr ⟨h, s * p / (s * p + (1 - c) * (1 - p)), by simp [ppv, h], ?_, ?_⟩
    · exact div_nonneg htp (le_of_lt hd)
    · rw [div_le_one hd]
      linarith

/-- Witness for C5 at sensitivity `9/10`, specificity `19/20`, prevalence `1/20`. -/
theorem ppv_range_witness :
    ((9/10 : ℚ) * (1/20) + (1 - 19/20) * (1 - 1/20) = 0 ∧
      ppv (9/10) (19/20) (1/20) = JSNum.nan) ∨
    ((9/10 : ℚ) * (1/20) + (1 - 19/20) * (1 - 1/20) ≠ 0 ∧
      ∃ v : ℚ, ppv (9/10) (19/20) (1/20) = JSNum.fin v ∧ 0 ≤ v ∧ v ≤ 1) :=
  ppv_range (9/10) (19/20) (1/20) (by norm_num) (by norm_num) (by norm_num)
    (by norm_num) (by norm_num) (by norm_num)

/-- C2: for any non-negative integer population `N` and parameters in `[0, 1]`,
the projector's four cells satisfy `TP + FN + TN + FP = N` exactly and
`TP + FN = round(N * prevalence)` exactly. -/
theorem confusionCells_totals (s c p : ℚ) (N : ℤ) (hN : 0 ≤ N)
    (hs₀ : 0 ≤ s) (hs₁ : s ≤ 1) (hc₀ : 0 ≤ c) (hc₁ : c ≤ 1) (hp₀ : 0 ≤ p) (hp₁ : p ≤ 1) :
    (confusionCells s c p N).TP + (confusionCells s c p N).FN +
      (confusionCells s c p N).TN + (confusionCells s c p N).FP = N ∧
    (confusionCells s c p N).TP + (confusionCells s c p N).FN = jsRound ((N : ℚ) * p) := by
  constructor <;> simp [confusionCells]

/-- Witness for C2 at sensitivity `9/10`, specificity `19/20`, prevalence `1/20`,
population `10000`. -/
theorem confusionCells_totals_witness :
    (confusionCells (9/10) (19/20) (1/20) 10000).TP +
      (confusionCells (9/10) (19/20) (1/20) 10000).FN +
      (confusionCells (9/10) (19/20) (1/20) 10000).TN +
      (confusionCells (9/10) (19/20) (1/20) 10000).FP = 10000 ∧
    (confusionCells (9/10) (19/20) (1/20) 10000).TP +
      (confusionCells (9/10) (19/20) (1/20) 10000).FN =
        jsRound ((10000 : ℚ) * (1/20)) :=
  confusionCells_totals (9/10) (19/20) (1/20) 10000 (by norm_num) (by norm_num)
    (by norm_num) (by norm_num) (by norm_num) (by norm_num) (by norm_num)

/-- C8: for any non-negative integer population `N` and parameters in `[0, 1]`,
each of the four cells `TP`, `FP`, `TN`, `FN` is non-negative. -/
theorem confusionCells_nonneg (s c p : ℚ) (N : ℤ) (hN : 0 ≤ N)
    (hs₀ : 0 ≤ s) (hs₁ : s ≤ 1) (hc₀ : 0 ≤ c) (hc₁ : c ≤ 1) (hp₀ : 0 ≤ p) (hp₁ : p ≤ 1) :
    0 ≤ (confusionCells s c p N).TP ∧ 0 ≤ (confusionCells s c p N).FP ∧
    0 ≤ (confusionCells s c p N).TN ∧ 0 ≤ (confusionCells s c p N).FN := by
  have hNq : (0 : ℚ) ≤ (N : ℚ) := by exact_mod_cast hN
  have hdiseased₀ : 0 ≤ jsRound ((N : ℚ) * p) := jsRound_nonneg (mul_nonneg hNq hp₀)
  have hdiseased₁ : jsRound ((N : ℚ) * p) ≤ N :=
    jsRound_le (by nlinarith)
  set d : ℤ := jsRound ((N : ℚ) * p) with hd
  have hdq : (0 : ℚ) ≤ (d : ℚ) := by exact_mod_cast hdiseased₀
  have hTP₀ : 0 ≤ jsRound ((d : ℚ) * s) := jsRound_nonneg (mul_nonneg hdq hs₀)
  have hTP₁ : jsRound ((d : ℚ) * s) ≤ d := jsRound_le (by nlinarith)
  have hhq : (0 : ℚ) ≤ ((N - d : ℤ) : ℚ) := by
    push_cast
    have : (d : ℚ) ≤ (N : ℚ) := by exact_mod_cast hdiseased₁
    linarith
  have hTN₀ : 0 ≤ jsRound (((N - d : ℤ) : ℚ) * c) := jsRound_nonneg (mul_nonneg hhq hc₀)
  have hTN₁ : jsRound (((N - d : ℤ) : ℚ) * c) ≤ N - d := jsRound_le (by nlinarith)
  refine ⟨?_, ?_, ?_, ?_⟩ <;> simp only [confusionCells, ← hd] <;> omega

/-- Witness for C8 at sensitivity `9/10`, specificity `19/20`, prevalence `1/20`,
population `10000`. -/
theorem confusionCells_nonneg_witness :
    0 ≤ (confusionCells (9/10) (19/20) (1/20) 10000).TP ∧
    0 ≤ (confusionCells (9/10) (19/20) (1/20) 10000).FP ∧
    0 ≤ (confusionCells (9/10) (19/20) (1/20) 10000).TN ∧
    0 ≤ (confusionCells (9/10) (19/20) (1/20) 10000).FN :=
  confusionCells_nonneg (9/10) (19/20) (1/20) 10000 (by norm_num) (by norm_num)
    (by norm_num) (by norm_num) (by norm_num) (by norm_num) (by norm_num)

/-- C9: `TP` and `FN` do not depend on specificity, and `TN` and `FP` do not
depend on sensitivity. -/
theorem confusionCells_param_independence (p : ℚ) (N : ℤ) (s c₁ c₂ s₁ s₂ c : ℚ) :
    ((confusionCells s c₁ p N).TP = (confusionCells s c₂ p N).TP ∧
     (confusionCells s c₁ p N).FN = (confusionCells s c₂ p N).FN) ∧
    ((confusionCells s₁ c p N).TN = (confusionCells s₂ c p N).TN ∧
     (confusionCells s₁ c p N).FP = (confusionCells s₂ c p N).FP) := by
  simp [confusionCells]

/-- C10: each Parameter Store setter changes only its own named percentage and
leaves the other two exactly as they were. -/
theorem setters_frame (v : ℚ) (st : Params) :
    ((setSensitivityPct v st).sensitivityPct = v ∧
     (setSensitivityPct v st).specificityPct = st.specificityPct ∧
     (setSensitivityPct v st).prevalencePct = st.prevalencePct) ∧
    ((setSpecificityPct v st).specificityPct = v ∧
     (setSpecificityPct v st).sensitivityPct = st.sensitivityPct ∧
     (setSpecificityPct v st).prevalencePct = st.prevalencePct) ∧
    ((setPrevalencePct v st).prevalencePct = v ∧
     (setPrevalencePct v st).sensitivityPct = st.sensitivityPct ∧
     (setPrevalencePct v st).specificityPct = st.specificityPct) := by
  simp [setSensitivityPct, setSpecificityPct, setPrevalencePct]

/-- A digit character for a digit below ten is one of `0`–`9`. -/
lemma digitChar_isDigit {d : ℕ} (h : d < 10) : (Nat.digitChar d).isDigit = true := by
  interval_cases d <;> decide

/-- Every character of `twoDigits m` is a decimal digit when `m < 100`. -/
lemma twoDigits_all_digits {m : ℕ} (h : m < 100) :
    ∀ ch ∈ (twoDigits m).data, ch.isDigit = true := by
  intro ch hch
  have h₁ : m / 10 < 10 := by omega
  have h₂ : m % 10 < 10 := by omega
  have hch₂ : ch ∈ [Nat.digitChar (m / 10), Nat.digitChar (m % 10)] := hch
  simp only [List.mem_cons, List.not_mem_nil, or_false] at hch₂
  rcases hch₂ with h | h
  · exact h ▸ digitChar_isDigit h₁
  · exact h ▸ digitChar_isDigit h₂

/-- `twoDigits m` has exactly two characters. -/
lemma twoDigits_length (m : ℕ) : (twoDigits m).length = 2 := rfl

/-- C7: for a finite input `q`, `fmtPct` returns `(q * 100)` rendered by the
fixed-point formatter — an integer part, a decimal point, exactly two decimal
digit characters, and a trailing percent sign — and for every non-finite input
(`NaN` or infinite) it returns the literal `"n/a"`. -/
theorem fmtPct_contract (x : JSNum) :
    (∀ q : ℚ, x = JSNum.fin q →
      fmtPct x = toFixed2 (q * 100) ++ "%" ∧
      ∃ (intStr : String) (m : ℕ), m < 100 ∧
        fmtPct x = intStr ++ "." ++ twoDigits m ++ "%" ∧
        (twoDigits m).length = 2 ∧
        ∀ ch ∈ (twoDigits m).data, ch.isDigit = true) ∧
    (x.isFinite = false → fmtPct x = "n/a") := by
  constructor
  · rintro q rfl
    refine ⟨rfl, (if q * 100 < 0 then "-" else "") ++
      Nat.repr ((⌊|q * 100| * 100 + 1/2⌋).toNat / 100),
      (⌊|q * 100| * 100 + 1/2⌋).toNat % 100, Nat.mod_lt _ (by omega), rfl,
      twoDigits_length _, twoDigits_all_digits (Nat.mod_lt _ (by omega))⟩
  · intro h
    cases x <;> simp_all [fmtPct, JSNum.isFinite]

/-- Witness for C7: the finite branch at `1/2` and the non-finite branch at `NaN`. -/
theorem fmtPct_contract_witness :
    (fmtPct (JSNum.fin (1/2)) = toFixed2 ((1/2) * 100) ++ "%" ∧
      ∃ (intStr : String) (m : ℕ), m < 100 ∧
        fmtPct (JSNum.fin (1/2)) = intStr ++ "." ++ twoDigits m ++ "%" ∧
        (twoDigits m).length = 2 ∧
        ∀ ch ∈ (twoDigits m).data, ch.isDigit = true) ∧
    fmtPct JSNum.nan = "n/a" :=
  ⟨(fmtPct_contract (JSNum.fin (1/2))).1 (1/2) rfl,
   (fmtPct_contract JSNum.nan).2 rfl⟩

end PPVCalc
